import Mathlib

/-!
Shallow embedding of `src/py-lambda/app.py` (the single source file of the
repository): the AWS-Lambda-style request handler `lambda_handler`.

Modelling choices:
* JSON values are the inductive `JsonValue`; numeric literals are modelled as
  integers (CPython's `json` also accepts floating-point literals and
  `NaN`/`Infinity`; no behaviour under scrutiny involves them, and they are
  outside this model).
* Python truthiness (`if not user_id or not name`) is the function `truthy`.
* `json.dumps` with its default arguments is the function `dumps`
  (separators `", "` and `": "`, `ensure_ascii=True` escaping).
* `json.loads` is the function `loads`, a recursive-descent parser mirroring
  CPython's strict decoder (double-quoted strings only, no control characters
  inside strings, `0|[1-9][0-9]*` integer literals, trailing input rejected
  as extra data).  CPython's decode-error messages carry a position suffix
  (`: line .. column .. (char ..)`); the messages here keep only the leading
  phrase.
* Exceptions escaping to the `except Exception` boundary are the type
  `PyError`; `str(e)` is `PyError.message` and `type(e).__name__` is
  `PyError.typeName`.
* The two `logger` calls are side effects on the process logger only; they
  never influence the returned envelope (for a `JsonValue` event
  `json.dumps(event)` in the first log line always succeeds) and are not
  modelled.
-/

inductive JsonValue where
  | null : JsonValue
  | bool : Bool → JsonValue
  | num : Int → JsonValue
  | str : String → JsonValue
  | arr : List JsonValue → JsonValue
  | obj : List (String × JsonValue) → JsonValue

/-- Python truthiness of a JSON-representable value: `None`, `False`, `0`,
`""`, `[]` and `\x7b\x7d` are falsy, everything else truthy. -/
def truthy : JsonValue → Bool
  | .null => false
  | .bool b => b
  | .num n => n ≠ 0
  | .str s => !s.isEmpty
  | .arr xs => !xs.isEmpty
  | .obj kvs => !kvs.isEmpty

/-- `type(v).__name__` for the Python value a `JsonValue` stands for. -/
def pyTypeName : JsonValue → String
  | .null => "NoneType"
  | .bool _ => "bool"
  | .num _ => "int"
  | .str _ => "str"
  | .arr _ => "list"
  | .obj _ => "dict"

/-- `d.get(k)` on a Python dict built by inserting the pairs in order: the
last binding of a key wins. -/
def objGet (kvs : List (String × JsonValue)) (k : String) : Option JsonValue :=
  (kvs.filter (fun kv => kv.1 == k)).getLast?.map (fun kv => kv.2)

/-- Lowercase hexadecimal digit, as CPython prints in `\uXXXX` escapes. -/
def hexDigitChar (n : Nat) : Char :=
  if n < 10 then Char.ofNat (48 + n) else Char.ofNat (87 + n % 16)

/-- Four lowercase hex digits. -/
def toHex4 (n : Nat) : String :=
  String.mk [hexDigitChar (n / 4096 % 16), hexDigitChar (n / 256 % 16),
             hexDigitChar (n / 16 % 16), hexDigitChar (n % 16)]

/-- `json.dumps` escaping of one character under `ensure_ascii=True`. -/
def escapeChar (c : Char) : String :=
  let n := c.toNat
  if c = '"' then "\\\""
  else if c = '\\' then "\\\\"
  else if c = '\n' then "\\n"
  else if c = '\r' then "\\r"
  else if c = '\t' then "\\t"
  else if n = 8 then "\\b"
  else if n = 12 then "\\f"
  else if n < 32 then "\\u" ++ toHex4 n
  else if n < 127 then String.singleton c
  else if n < 65536 then "\\u" ++ toHex4 n
  else
    "\\u" ++ toHex4 (55296 + (n - 65536) / 1024) ++
    "\\u" ++ toHex4 (56320 + (n - 65536) % 1024)

/-- A JSON string literal as `json.dumps` prints it. -/
def escapeJsonString (s : String) : String :=
  "\"" ++ String.join (s.toList.map escapeChar) ++ "\""

mutual

/-- `json.dumps` with default arguments (item separator `", "`, key
separator `": "`). -/
def dumps : JsonValue → String
  | .null => "null"
  | .bool b => if b then "true" else "false"
  | .num n => toString n
  | .str s => escapeJsonString s
  | .arr xs => "[" ++ dumpsItems xs ++ "]"
  | .obj kvs => "\x7b" ++ dumpsPairs kvs ++ "\x7d"

/-- Comma-joined array items. -/
def dumpsItems : List JsonValue → String
  | [] => ""
  | [x] => dumps x
  | x :: y :: xs => dumps x ++ ", " ++ dumpsItems (y :: xs)

/-- Comma-joined `"key": value` pairs. -/
def dumpsPairs : List (String × JsonValue) → String
  | [] => ""
  | [kv] => escapeJsonString kv.1 ++ ": " ++ dumps kv.2
  | kv :: kv2 :: kvs =>
      escapeJsonString kv.1 ++ ": " ++ dumps kv.2 ++ ", " ++ dumpsPairs (kv2 :: kvs)

end

/-- A single-quote character, for building CPython error messages without
apostrophes in source literals. -/
def singleQuote : String := String.singleton (Char.ofNat 39)

/-- Wrap a string in single quotes, as CPython error messages do. -/
def pyQuoted (s : String) : String := singleQuote ++ s ++ singleQuote

/-- JSON whitespace accepted by CPython decoding. -/
def isJsonWs (c : Char) : Bool := c = ' ' || c = '\t' || c = '\n' || c = '\r'

/-- Skip leading JSON whitespace. -/
def skipWs : List Char → List Char
  | [] => []
  | c :: cs => if isJsonWs c then skipWs cs else c :: cs

/-- Value of one hexadecimal digit. -/
def hexVal (c : Char) : Option Nat :=
  if 48 ≤ c.toNat && c.toNat ≤ 57 then some (c.toNat - 48)
  else if 97 ≤ c.toNat && c.toNat ≤ 102 then some (c.toNat - 87)
  else if 65 ≤ c.toNat && c.toNat ≤ 70 then some (c.toNat - 55)
  else none

/-- Decimal digit value. -/
def digitVal (c : Char) : Option Nat :=
  if 48 ≤ c.toNat && c.toNat ≤ 57 then some (c.toNat - 48) else none

/-- Longest leading run of decimal digits. -/
def takeDigits : List Char → (List Nat × List Char)
  | [] => ([], [])
  | c :: cs =>
    match digitVal c with
    | some d => let p := takeDigits cs; (d :: p.1, p.2)
    | none => ([], c :: cs)

/-- Natural number denoted by a digit run. -/
def digitsToNat (ds : List Nat) : Nat := ds.foldl (fun a d => a * 10 + d) 0

/-- Insertion into a Python dict: an existing key keeps its position and gets
the new value, a new key is appended.  CPython's JSON object decoding builds
its dicts this way, so duplicate keys collapse with the last value winning. -/
def dictInsert (kvs : List (String × JsonValue)) (k : String) (v : JsonValue) :
    List (String × JsonValue) :=
  if kvs.any (fun kv => kv.1 == k) then
    kvs.map (fun kv => if kv.1 == k then (k, v) else kv)
  else kvs ++ [(k, v)]

/-- Decode error phrases, per CPython `json.decoder` (the `: line .. column ..
(char ..)` suffix of the real messages is not modelled). -/
def msgExpectingValue : String := "Expecting value"

/-- CPython phrase for a missing item separator. -/
def msgCommaDelim : String := "Expecting " ++ pyQuoted "," ++ " delimiter"

/-- CPython phrase for a missing key separator. -/
def msgColonDelim : String := "Expecting " ++ pyQuoted ":" ++ " delimiter"

/-- CPython phrase for a malformed object key. -/
def msgPropertyName : String := "Expecting property name enclosed in double quotes"

/-!
The parser functions below mirror CPython `json.scanner`/`json.decoder`
(strict mode, default hooks).  A `fuel` argument makes the recursion
structural; `loads` supplies more fuel than any input can exhaust, since every
recursive call follows the consumption of at least one input character.
-/
mutual

/-- `py_scanstring`: body of a string literal, cursor past the opening quote.
Strict mode: raw control characters are rejected; `\uXXXX` escapes combine
surrogate pairs.  (CPython keeps a lone surrogate as a lone code unit; a Lean
`Char` cannot hold one, so `Char.ofNat` degrades it — nothing under scrutiny
touches that case.) -/
def parseStringBody : Nat → List Char → Except String (String × List Char)
  | 0, _ => .error "Unterminated string starting at"
  | _ + 1, [] => .error "Unterminated string starting at"
  | fuel + 1, c :: cs =>
    if c = '"' then .ok ("", cs)
    else if c = '\\' then
      match cs with
      | [] => .error "Unterminated string starting at"
      | e :: cs2 =>
        if e = 'u' then
          match cs2 with
          | h1 :: h2 :: h3 :: h4 :: cs3 =>
            match hexVal h1, hexVal h2, hexVal h3, hexVal h4 with
            | some a, some b, some c3, some d =>
              let n := a * 4096 + b * 256 + c3 * 16 + d
              let pair : Option (Nat × List Char) :=
                if 55296 ≤ n && n < 56320 then
                  match cs3 with
                  | b1 :: u2 :: g1 :: g2 :: g3 :: g4 :: cs4 =>
                    if b1 = '\\' && u2 = 'u' then
                      match hexVal g1, hexVal g2, hexVal g3, hexVal g4 with
                      | some a2, some b2, some c4, some d2 =>
                        let m := a2 * 4096 + b2 * 256 + c4 * 16 + d2
                        if 56320 ≤ m && m < 57344 then
                          some (65536 + (n - 55296) * 1024 + (m - 56320), cs4)
                        else none
                      | _, _, _, _ => none
                    else none
                  | _ => none
                else none
              match pair with
              | some p =>
                match parseStringBody fuel p.2 with
                | .ok q => .ok (String.singleton (Char.ofNat p.1) ++ q.1, q.2)
                | .error err => .error err
              | none =>
                match parseStringBody fuel cs3 with
                | .ok q => .ok (String.singleton (Char.ofNat n) ++ q.1, q.2)
                | .error err => .error err
            | _, _, _, _ => .error "Invalid \\uXXXX escape"
          | _ => .error "Invalid \\uXXXX escape"
        else
          let simple : Option Char :=
            if e = '"' then some '"'
            else if e = '\\' then some '\\'
            else if e = '/' then some '/'
            else if e = 'b' then some (Char.ofNat 8)
            else if e = 'f' then some (Char.ofNat 12)
            else if e = 'n' then some '\n'
            else if e = 'r' then some '\r'
            else if e = 't' then some '\t'
            else none
          match simple with
          | some ch =>
            match parseStringBody fuel cs2 with
            | .ok q => .ok (String.singleton ch ++ q.1, q.2)
            | .error err => .error err
          | none => .error "Invalid \\escape"
    else if c.toNat < 32 then .error "Invalid control character"
    else
      match parseStringBody fuel cs with
      | .ok q => .ok (String.singleton c ++ q.1, q.2)
      | .error err => .error err

/-- `scan_once`: one JSON value, leading whitespace allowed. -/
def parseValue : Nat → List Char → Except String (JsonValue × List Char)
  | 0, _ => .error msgExpectingValue
  | fuel + 1, cs =>
    match skipWs cs with
    | [] => .error msgExpectingValue
    | c :: rest =>
      if c = '"' then
        match parseStringBody fuel rest with
        | .ok p => .ok (.str p.1, p.2)
        | .error err => .error err
      else if c.toNat = 123 then parseObjBody fuel rest
      else if c = '[' then parseArrBody fuel rest
      else if c = 't' then
        match rest with
        | 'r' :: 'u' :: 'e' :: rest2 => .ok (.bool true, rest2)
        | _ => .error msgExpectingValue
      else if c = 'f' then
        match rest with
        | 'a' :: 'l' :: 's' :: 'e' :: rest2 => .ok (.bool false, rest2)
        | _ => .error msgExpectingValue
      else if c = 'n' then
        match rest with
        | 'u' :: 'l' :: 'l' :: rest2 => .ok (.null, rest2)
        | _ => .error msgExpectingValue
      else if c = '-' then
        match rest with
        | d :: rest2 =>
          match digitVal d with
          | some dv =>
            match parseNatLit dv rest2 with
            | (nv, rest3) => .ok (.num (-(nv : Int)), rest3)
          | none => .error msgExpectingValue
        | [] => .error msgExpectingValue
      else
        match digitVal c with
        | some dv =>
          match parseNatLit dv rest with
          | (nv, rest2) => .ok (.num (nv : Int), rest2)
        | none => .error msgExpectingValue

/-- Integer literal whose first digit is already consumed: the `0|[1-9][0-9]*`
rule of CPython `NUMBER_RE` — after a leading `0` no further digits are
consumed. -/
def parseNatLit (first : Nat) (cs : List Char) : Nat × List Char :=
  if first = 0 then (0, cs)
  else
    let p := takeDigits cs
    (digitsToNat (first :: p.1), p.2)

/-- `JSONArray`: cursor just past the opening bracket. -/
def parseArrBody (fuel : Nat) (cs : List Char) :
    Except String (JsonValue × List Char) :=
  match fuel with
  | 0 => .error msgExpectingValue
  | fuel + 1 =>
    match skipWs cs with
    | c :: rest =>
      if c = ']' then .ok (.arr [], rest)
      else parseArrItems fuel (c :: rest) []
    | [] => .error msgExpectingValue

/-- Items of a nonempty array, cursor at the start of the next item. -/
def parseArrItems (fuel : Nat) (cs : List Char) (acc : List JsonValue) :
    Except String (JsonValue × List Char) :=
  match fuel with
  | 0 => .error msgExpectingValue
  | fuel + 1 =>
    match parseValue fuel cs with
    | .error err => .error err
    | .ok (v, rest) =>
      match skipWs rest with
      | c :: rest2 =>
        if c = ']' then .ok (.arr (acc ++ [v]), rest2)
        else if c = ',' then parseArrItems fuel rest2 (acc ++ [v])
        else .error msgCommaDelim
      | [] => .error msgCommaDelim

/-- `JSONObject`: cursor just past the opening brace. -/
def parseObjBody (fuel : Nat) (cs : List Char) :
    Except String (JsonValue × List Char) :=
  match fuel with
  | 0 => .error msgPropertyName
  | fuel + 1 =>
    match skipWs cs with
    | c :: rest =>
      if c.toNat = 125 then .ok (.obj [], rest)
      else if c = '"' then parseObjItems fuel rest []
      else .error msgPropertyName
    | [] => .error msgPropertyName

/-- Members of a nonempty object, cursor just past the opening quote of the
next key. -/
def parseObjItems (fuel : Nat) (cs : List Char)
    (acc : List (String × JsonValue)) : Except String (JsonValue × List Char) :=
  match fuel with
  | 0 => .error msgPropertyName
  | fuel + 1 =>
    match parseStringBody fuel cs with
    | .error err => .error err
    | .ok (key, rest) =>
      match skipWs rest with
      | c :: rest2 =>
        if c = ':' then
          match parseValue fuel rest2 with
          | .error err => .error err
          | .ok (v, rest3) =>
            let acc2 := dictInsert acc key v
            match skipWs rest3 with
            | c2 :: rest4 =>
              if c2.toNat = 125 then .ok (.obj acc2, rest4)
              else if c2 = ',' then
                match skipWs rest4 with
                | c3 :: rest5 =>
                  if c3 = '"' then parseObjItems fuel rest5 acc2
                  else .error msgPropertyName
                | [] => .error msgPropertyName
              else .error msgCommaDelim
            | [] => .error msgCommaDelim
        else .error msgColonDelim
      | [] => .error msgColonDelim

end

/-- `json.loads`: decode one JSON document, rejecting trailing input. -/
def loads (s : String) : Except String JsonValue :=
  match parseValue (4 * s.length + 8) s.toList with
  | .error err => .error err
  | .ok (v, rest) =>
    match skipWs rest with
    | [] => .ok v
    | _ => .error "Extra data"

/-- The exceptions `lambda_handler` can raise internally on a
JSON-representable event, reaching its `except Exception` boundary. -/
inductive PyError where
  | jsonDecodeError : String → PyError
  | typeError : String → PyError
  | attributeError : String → PyError

/-- `str(e)`. -/
def PyError.message : PyError → String
  | .jsonDecodeError m => m
  | .typeError m => m
  | .attributeError m => m

/-- `type(e).__name__`. -/
def PyError.typeName : PyError → String
  | .jsonDecodeError _ => "JSONDecodeError"
  | .typeError _ => "TypeError"
  | .attributeError _ => "AttributeError"

/-- `v.get(..)` demands a dict: any other value raises `AttributeError`
(`'<type>' object has no attribute 'get'`). -/
def asDict : JsonValue → Except PyError (List (String × JsonValue))
  | .obj kvs => .ok kvs
  | v => .error (.attributeError
      (pyQuoted (pyTypeName v) ++ " object has no attribute " ++ pyQuoted "get"))

/-- `json.loads` demands `str` (or bytes, which no JSON value is): any other
argument raises `TypeError`. -/
def loadsArg : JsonValue → Except PyError String
  | .str s => .ok s
  | v => .error (.typeError
      ("the JSON object must be str, bytes or bytearray, not " ++ pyTypeName v))

/-- The response envelope of `app.py`: `statusCode`, `headers`, `body`. -/
structure Response where
  statusCode : Nat
  headers : List (String × String)
  body : String
deriving Repr, DecidableEq

/-- The header mapping every branch of `lambda_handler` attaches. -/
def jsonHeaders : List (String × String) := [("Content-Type", "application/json")]

/-- The 400 envelope of the validation branch. -/
def resp400 : Response :=
  { statusCode := 400
    headers := jsonHeaders
    body := dumps (.obj [("error", .str "Missing \"id\" or \"name\"")]) }

/-- The 200 envelope of the success branch, echoing `user_id` and `name`. -/
def resp200 (user_id name : JsonValue) : Response :=
  { statusCode := 200
    headers := jsonHeaders
    body := dumps (.obj
      [("message", .str "User processed successfully by Python Lambda"),
       ("user", .obj [("id", user_id), ("name", name)]),
       ("note", .str "Demo response - PostgreSQL database not configured")]) }

/-- The 500 envelope of the `except Exception` branch. -/
def resp500 (e : PyError) : Response :=
  { statusCode := 500
    headers := jsonHeaders
    body := dumps (.obj
      [("error", .str "Internal server error"),
       ("message", .str e.message),
       ("type", .str e.typeName)]) }


/-- `Except.bind` on a success, for rewriting. -/
theorem exceptBind_ok {α β ε : Type} (a : α) (f : α → Except ε β) :
    Except.bind (.ok a) f = f a := rfl

/-- `Except.bind` on a failure, for rewriting. -/
theorem exceptBind_error {α β ε : Type} (e : ε) (f : α → Except ε β) :
    Except.bind (.error e : Except ε α) f = .error e := rfl

/-- `Except.map` on a success, for rewriting. -/
theorem exceptMap_ok {α β ε : Type} (a : α) (f : α → β) :
    Except.map f (.ok a : Except ε α) = .ok (f a) := rfl

/-- `Except.map` on a failure, for rewriting. -/
theorem exceptMap_error {α β ε : Type} (e : ε) (f : α → β) :
    Except.map f (.error e : Except ε α) = .error e := rfl

/-- `Except.mapError` on a success, for rewriting. -/
theorem exceptMapError_ok {α ε δ : Type} (a : α) (f : ε → δ) :
    Except.mapError f (.ok a : Except ε α) = .ok a := rfl

/-- `Except.mapError` on a failure, for rewriting. -/
theorem exceptMapError_error {α ε δ : Type} (e : ε) (f : ε → δ) :
    Except.mapError f (.error e : Except ε α) = .error (f e) := rfl

/-- The `try` block of `lambda_handler`, each fallible step an `Except`
step: `event.get("body", "\x7b\x7d")` defaults the body to the two-character
string `"\x7b\x7d"` (an empty JSON object) only when the key is absent;
`body.get("id")`/`body.get("name")` default to `None` (`JsonValue.null`) when
absent; `if not user_id or not name` is Python truthiness. -/
def tryBody (event : JsonValue) : Except PyError Response :=
  Except.bind (asDict event) (fun fields =>
    Except.bind (loadsArg ((objGet fields "body").getD (.str "\x7b\x7d"))) (fun s =>
      Except.bind (Except.mapError PyError.jsonDecodeError (loads s)) (fun bodyJson =>
        Except.map (fun m =>
            let user_id := (objGet m "id").getD JsonValue.null
            let name := (objGet m "name").getD JsonValue.null
            if !truthy user_id || !truthy name then resp400
            else resp200 user_id name)
          (asDict bodyJson))))

/-- `lambda_handler(event, context)`: the `try` block with its
`except Exception` boundary.  The `context` argument is never read, so it is
of an arbitrary type; the event is any JSON-representable value (the gateway
delivers a JSON object, but nothing in the code assumes so before
`event.get`). -/
def lambda_handler {Ctx : Type} (event : JsonValue) (_context : Ctx) : Response :=
  match tryBody event with
  | .ok r => r
  | .error e => resp500 e

/-- Claim C1: an event whose (defaulted) body string decodes to a JSON
mapping with both `id` and `name` present and truthy gets a 200 response
whose body is exactly the JSON serialization of the fixed success message,
the echoed `user` object, and the fixed note. -/
theorem claim1_success_echo {Ctx : Type} (ctx : Ctx)
    (fields m : List (String × JsonValue)) (s : String) (uid nm : JsonValue)
    (hbody : (objGet fields "body").getD (.str "\x7b\x7d") = .str s)
    (hloads : loads s = .ok (.obj m))
    (hid : objGet m "id" = some uid)
    (hnm : objGet m "name" = some nm)
    (huid : truthy uid = true)
    (hnmT : truthy nm = true) :
    lambda_handler (.obj fields) ctx =
      { statusCode := 200
        headers := [("Content-Type", "application/json")]
        body := dumps (.obj
          [("message", .str "User processed successfully by Python Lambda"),
           ("user", .obj [("id", uid), ("name", nm)]),
           ("note", .str "Demo response - PostgreSQL database not configured")]) } := by
  unfold lambda_handler tryBody
  simp only [asDict, exceptBind_ok]
  rw [hbody]
  simp only [loadsArg, exceptBind_ok, hloads, exceptMapError_ok, asDict,
    exceptMap_ok, hid, hnm, Option.getD_some, huid, hnmT,
    Bool.not_true, Bool.or_self, Bool.false_or]
  rfl

/-- Witness for C1 at scenario A. -/
theorem claim1_success_echo_witness :
    loads "\x7b\"id\": \"42\", \"name\": \"Alice\"\x7d" =
      .ok (.obj [("id", .str "42"), ("name", .str "Alice")]) ∧
    lambda_handler
        (.obj [("body", .str "\x7b\"id\": \"42\", \"name\": \"Alice\"\x7d")]) (0 : Nat) =
      { statusCode := 200
        headers := [("Content-Type", "application/json")]
        body := dumps (.obj
          [("message", .str "User processed successfully by Python Lambda"),
           ("user", .obj [("id", .str "42"), ("name", .str "Alice")]),
           ("note", .str "Demo response - PostgreSQL database not configured")]) } :=
  ⟨rfl,
    claim1_success_echo 0
      [("body", .str "\x7b\"id\": \"42\", \"name\": \"Alice\"\x7d")]
      [("id", .str "42"), ("name", .str "Alice")]
      "\x7b\"id\": \"42\", \"name\": \"Alice\"\x7d"
      (.str "42") (.str "Alice") rfl rfl rfl rfl rfl rfl⟩

/-- Claim C2: an event whose (defaulted) body string decodes to a JSON
mapping in which `id` or `name` is missing or falsy gets a 400 response whose
body is exactly the serialized fixed validation error, and nothing else. -/
theorem claim2_validation_400 {Ctx : Type} (ctx : Ctx)
    (fields m : List (String × JsonValue)) (s : String)
    (hbody : (objGet fields "body").getD (.str "\x7b\x7d") = .str s)
    (hloads : loads s = .ok (.obj m))
    (hfalsy : truthy ((objGet m "id").getD .null) = false ∨
              truthy ((objGet m "name").getD .null) = false) :
    lambda_handler (.obj fields) ctx =
      { statusCode := 400
        headers := [("Content-Type", "application/json")]
        body := dumps (.obj [("error", .str "Missing \"id\" or \"name\"")]) } := by
  unfold lambda_handler tryBody
  simp only [asDict, exceptBind_ok]
  rw [hbody]
  simp only [loadsArg, exceptBind_ok, hloads, exceptMapError_ok, asDict, exceptMap_ok]
  rcases hfalsy with h | h
  · simp only [h, Bool.not_false, Bool.true_or]
    rfl
  · simp only [h, Bool.not_false, Bool.or_true]
    rfl

/-- Witness for C2 at scenario B (`id` present but empty). -/
theorem claim2_validation_400_witness :
    loads "\x7b\"id\": \"\", \"name\": \"Bob\"\x7d" =
      .ok (.obj [("id", .str ""), ("name", .str "Bob")]) ∧
    lambda_handler
        (.obj [("body", .str "\x7b\"id\": \"\", \"name\": \"Bob\"\x7d")]) (0 : Nat) =
      { statusCode := 400
        headers := [("Content-Type", "application/json")]
        body := dumps (.obj [("error", .str "Missing \"id\" or \"name\"")]) } :=
  ⟨rfl,
    claim2_validation_400 0
      [("body", .str "\x7b\"id\": \"\", \"name\": \"Bob\"\x7d")]
      [("id", .str ""), ("name", .str "Bob")]
      "\x7b\"id\": \"\", \"name\": \"Bob\"\x7d" rfl rfl (Or.inl rfl)⟩

/-- Claim C5: an event with no `body` key at all is handled as if the body
were the empty JSON object, so validation fails and the response is the fixed
400 envelope. -/
theorem claim5_absent_body_400 {Ctx : Type} (ctx : Ctx)
    (fields : List (String × JsonValue))
    (habsent : objGet fields "body" = none) :
    lambda_handler (.obj fields) ctx =
      { statusCode := 400
        headers := [("Content-Type", "application/json")]
        body := dumps (.obj [("error", .str "Missing \"id\" or \"name\"")]) } := by
  unfold lambda_handler tryBody
  simp only [asDict, exceptBind_ok, habsent, Option.getD_none]
  rfl

/-- Witness for C5: an event carrying only transport metadata. -/
theorem claim5_absent_body_400_witness :
    objGet [("httpMethod", JsonValue.str "POST")] "body" = none ∧
    lambda_handler (.obj [("httpMethod", JsonValue.str "POST")]) (0 : Nat) =
      { statusCode := 400
        headers := [("Content-Type", "application/json")]
        body := dumps (.obj [("error", .str "Missing \"id\" or \"name\"")]) } :=
  ⟨rfl, claim5_absent_body_400 0 [("httpMethod", JsonValue.str "POST")] rfl⟩

/-- Claim C4: an event whose body is a string that fails JSON decoding gets a
500 response whose body serializes the fixed error text, the exception's
string representation, and the decode-error category name. -/
theorem claim4_malformed_body_500 {Ctx : Type} (ctx : Ctx)
    (fields : List (String × JsonValue)) (s msg : String)
    (hbody : (objGet fields "body").getD (.str "\x7b\x7d") = .str s)
    (hloads : loads s = .error msg) :
    lambda_handler (.obj fields) ctx =
      { statusCode := 500
        headers := [("Content-Type", "application/json")]
        body := dumps (.obj
          [("error", .str "Internal server error"),
           ("message", .str msg),
           ("type", .str "JSONDecodeError")]) } := by
  unfold lambda_handler tryBody
  simp only [asDict, exceptBind_ok]
  rw [hbody]
  simp only [loadsArg, exceptBind_ok, hloads, exceptMapError_error, exceptBind_error]
  rfl

/-- Witness for C4 at scenario D. -/
theorem claim4_malformed_body_500_witness :
    loads "not valid json" = .error "Expecting value" ∧
    lambda_handler (.obj [("body", .str "not valid json")]) (0 : Nat) =
      { statusCode := 500
        headers := [("Content-Type", "application/json")]
        body := dumps (.obj
          [("error", .str "Internal server error"),
           ("message", .str "Expecting value"),
           ("type", .str "JSONDecodeError")]) } :=
  ⟨rfl,
    claim4_malformed_body_500 0 [("body", .str "not valid json")]
      "not valid json" "Expecting value" rfl rfl⟩

/-- Claim C8: a `body` key that is present with value `None` is not defaulted
to the empty object — `json.loads(None)` raises `TypeError`, so the response
is a 500, not the 400 an absent body yields. -/
theorem claim8_null_body_typeerror {Ctx : Type} (ctx : Ctx)
    (fields : List (String × JsonValue))
    (hnull : objGet fields "body" = some .null) :
    lambda_handler (.obj fields) ctx =
      { statusCode := 500
        headers := [("Content-Type", "application/json")]
        body := dumps (.obj
          [("error", .str "Internal server error"),
           ("message",
            .str "the JSON object must be str, bytes or bytearray, not NoneType"),
           ("type", .str "TypeError")]) } ∧
    (lambda_handler (.obj fields) ctx).statusCode ≠ 400 := by
  unfold lambda_handler tryBody
  simp only [asDict, exceptBind_ok, hnull, Option.getD_some, loadsArg,
    exceptBind_error]
  exact ⟨rfl, by simp [resp500]⟩

/-- Witness for C8: an event whose body is JSON `null`. -/
theorem claim8_null_body_typeerror_witness :
    objGet [("body", JsonValue.null)] "body" = some .null ∧
    lambda_handler (.obj [("body", JsonValue.null)]) (0 : Nat) =
      { statusCode := 500
        headers := [("Content-Type", "application/json")]
        body := dumps (.obj
          [("error", .str "Internal server error"),
           ("message",
            .str "the JSON object must be str, bytes or bytearray, not NoneType"),
           ("type", .str "TypeError")]) } :=
  ⟨rfl, (claim8_null_body_typeerror 0 [("body", JsonValue.null)] rfl).1⟩

/-- Exhaustive case analysis of the `try` block: it either succeeds with the
validation-failure envelope, succeeds with a success envelope, or raises. -/
theorem tryBody_cases (event : JsonValue) :
    tryBody event = .ok resp400 ∨
    (∃ uid nm, tryBody event = .ok (resp200 uid nm)) ∨
    (∃ e, tryBody event = .error e) := by
  unfold tryBody
  cases h1 : asDict event with
  | error e => exact Or.inr (Or.inr ⟨e, rfl⟩)
  | ok fields =>
    simp only [exceptBind_ok]
    cases h2 : loadsArg ((objGet fields "body").getD (.str "\x7b\x7d")) with
    | error e => exact Or.inr (Or.inr ⟨e, rfl⟩)
    | ok s =>
      simp only [exceptBind_ok]
      cases h3 : loads s with
      | error msg => exact Or.inr (Or.inr ⟨.jsonDecodeError msg, rfl⟩)
      | ok bodyJson =>
        simp only [exceptMapError_ok, exceptBind_ok]
        cases h4 : asDict bodyJson with
        | error e => exact Or.inr (Or.inr ⟨e, rfl⟩)
        | ok m =>
          simp only [exceptMap_ok]
          by_cases h5 : (!truthy ((objGet m "id").getD JsonValue.null) ||
              !truthy ((objGet m "name").getD JsonValue.null)) = true
          · left
            simp only [h5]
            rfl
          · right; left
            simp only [Bool.not_eq_true] at h5
            exact ⟨(objGet m "id").getD JsonValue.null,
                   (objGet m "name").getD JsonValue.null, by simp only [h5]; rfl⟩

/-- Claim C3: no exception escapes `lambda_handler` — whenever the `try`
block raises, the handler still returns, and it returns the converted 500
envelope; and every invocation returns an envelope with an HTTP-style status
code. -/
theorem claim3_no_raise {Ctx : Type} (event : JsonValue) (ctx : Ctx) :
    (∀ e : PyError, tryBody event = .error e →
        lambda_handler event ctx = resp500 e) ∧
    ((lambda_handler event ctx).statusCode = 200 ∨
     (lambda_handler event ctx).statusCode = 400 ∨
     (lambda_handler event ctx).statusCode = 500) := by
  constructor
  · intro e he
    unfold lambda_handler
    rw [he]
  · rcases tryBody_cases event with h | ⟨uid, nm, h⟩ | ⟨e, h⟩ <;>
      unfold lambda_handler <;> rw [h]
    · exact Or.inr (Or.inl rfl)
    · exact Or.inl rfl
    · exact Or.inr (Or.inr rfl)

/-- Witness for C3: a non-dict event makes the `try` block raise
`AttributeError`, and the handler returns its 500 conversion. -/
theorem claim3_no_raise_witness :
    tryBody (.num 3) =
      .error (.attributeError
        (pyQuoted "int" ++ " object has no attribute " ++ pyQuoted "get")) ∧
    lambda_handler (.num 3) (0 : Nat) =
      resp500 (.attributeError
        (pyQuoted "int" ++ " object has no attribute " ++ pyQuoted "get")) :=
  ⟨rfl, (claim3_no_raise (.num 3) 0).1 _ rfl⟩

/-- Claim C6: on every exit path the envelope has status 200, 400 or 500,
exactly the fixed JSON content-type header mapping, and a body that is the
serialization of some JSON value. -/
theorem claim6_envelope_invariant {Ctx : Type} (event : JsonValue) (ctx : Ctx) :
    ((lambda_handler event ctx).statusCode = 200 ∨
     (lambda_handler event ctx).statusCode = 400 ∨
     (lambda_handler event ctx).statusCode = 500) ∧
    (lambda_handler event ctx).headers = [("Content-Type", "application/json")] ∧
    ∃ j : JsonValue, (lambda_handler event ctx).body = dumps j := by
  rcases tryBody_cases event with h | ⟨uid, nm, h⟩ | ⟨e, h⟩ <;>
    unfold lambda_handler <;> rw [h]
  · exact ⟨Or.inr (Or.inl rfl), rfl, ⟨_, rfl⟩⟩
  · exact ⟨Or.inl rfl, rfl, ⟨_, rfl⟩⟩
  · exact ⟨Or.inr (Or.inr rfl), rfl, ⟨_, rfl⟩⟩

/-- Claim C7: the handler is deterministic and stateless — two invocations
with the same event (and any two contexts, of any types) return the same
envelope, byte-identical body included. -/
theorem claim7_deterministic {Ctx1 Ctx2 : Type} (c1 : Ctx1) (c2 : Ctx2)
    (e1 e2 : JsonValue) (h : e1 = e2) :
    lambda_handler e1 c1 = lambda_handler e2 c2 ∧
    (lambda_handler e1 c1).body = (lambda_handler e2 c2).body := by
  subst h
  exact ⟨rfl, rfl⟩

/-- Witness for C7: the same event under two contexts of different types. -/
theorem claim7_deterministic_witness :
    lambda_handler (.obj [("body", .str "\x7b\x7d")]) (0 : Nat) =
      lambda_handler (.obj [("body", .str "\x7b\x7d")]) "some context" ∧
    (lambda_handler (.obj [("body", .str "\x7b\x7d")]) (0 : Nat)).body =
      (lambda_handler (.obj [("body", .str "\x7b\x7d")]) "some context").body :=
  claim7_deterministic 0 "some context" _ _ rfl

/-- Claim C9: the envelope depends on the event only through its `body`
field — two events (as mappings) with the same `body` lookup get identical
responses, whatever their other transport metadata. -/
theorem claim9_body_noninterference {Ctx1 Ctx2 : Type} (c1 : Ctx1) (c2 : Ctx2)
    (fields1 fields2 : List (String × JsonValue))
    (h : objGet fields1 "body" = objGet fields2 "body") :
    lambda_handler (.obj fields1) c1 = lambda_handler (.obj fields2) c2 := by
  unfold lambda_handler tryBody
  simp only [asDict, exceptBind_ok]
  rw [h]

/-- Witness for C9: same body, different metadata. -/
theorem claim9_body_noninterference_witness :
    objGet [("a", JsonValue.num 1), ("body", JsonValue.str "x")] "body" =
      objGet [("body", JsonValue.str "x"), ("z", JsonValue.bool true)] "body" ∧
    lambda_handler (.obj [("a", .num 1), ("body", .str "x")]) (0 : Nat) =
      lambda_handler (.obj [("body", .str "x"), ("z", .bool true)]) (1 : Nat) :=
  ⟨rfl,
    claim9_body_noninterference 0 1
      [("a", .num 1), ("body", .str "x")]
      [("body", .str "x"), ("z", .bool true)] rfl⟩

/-- Claim C10: validation is type-agnostic — any truthy JSON values under
`id` and `name`, of whatever type, pass validation and are echoed unchanged
under `user`. -/
theorem claim10_type_permissive {Ctx : Type} (ctx : Ctx)
    (fields m : List (String × JsonValue)) (s : String)
    (hbody : (objGet fields "body").getD (.str "\x7b\x7d") = .str s)
    (hloads : loads s = .ok (.obj m))
    (hid : truthy ((objGet m "id").getD .null) = true)
    (hnm : truthy ((objGet m "name").getD .null) = true) :
    lambda_handler (.obj fields) ctx =
      { statusCode := 200
        headers := [("Content-Type", "application/json")]
        body := dumps (.obj
          [("message", .str "User processed successfully by Python Lambda"),
           ("user", .obj [("id", (objGet m "id").getD .null),
                          ("name", (objGet m "name").getD .null)]),
           ("note", .str "Demo response - PostgreSQL database not configured")]) } := by
  unfold lambda_handler tryBody
  simp only [asDict, exceptBind_ok]
  rw [hbody]
  simp only [loadsArg, exceptBind_ok, hloads, exceptMapError_ok, asDict,
    exceptMap_ok, hid, hnm, Bool.not_true, Bool.or_self, Bool.false_or]
  rfl

/-- Witness for C10: a numeric `id` and a list `name` are accepted and
echoed. -/
theorem claim10_type_permissive_witness :
    loads "\x7b\"id\": 7, \"name\": [null]\x7d" =
      .ok (.obj [("id", .num 7), ("name", .arr [.null])]) ∧
    lambda_handler
        (.obj [("body", .str "\x7b\"id\": 7, \"name\": [null]\x7d")]) (0 : Nat) =
      { statusCode := 200
        headers := [("Content-Type", "application/json")]
        body := dumps (.obj
          [("message", .str "User processed successfully by Python Lambda"),
           ("user", .obj [("id", .num 7), ("name", .arr [.null])]),
           ("note", .str "Demo response - PostgreSQL database not configured")]) } :=
  ⟨rfl,
    claim10_type_permissive 0
      [("body", .str "\x7b\"id\": 7, \"name\": [null]\x7d")]
      [("id", .num 7), ("name", .arr [.null])]
      "\x7b\"id\": 7, \"name\": [null]\x7d" rfl rfl rfl rfl⟩
